import Mathlib

/-!
Shallow embedding of the SentimentSense health/alerting core
(src/app/health.py, src/app/alerts.py, src/app/sentiment.py,
src/app/config.py) together with theorems settling the spec claims.

External effects (clock readings, psutil calls, model inference, channel
I/O) are passed in explicitly as environment parameters; timestamps are
modelled as natural numbers counting seconds.
-/

namespace SentimentSense

/-- Health status enumeration (health.py, `HealthStatus`). -/
inductive HealthStatus where
  | healthy
  | degraded
  | unhealthy
deriving DecidableEq, Repr

/-- String value of a status, as carried by the Python `str`-backed enum. -/
def HealthStatus.toStr : HealthStatus → String
  | .healthy => "healthy"
  | .degraded => "degraded"
  | .unhealthy => "unhealthy"

/-- Component health record (health.py, `ComponentHealth`).  The
heterogeneous `details` mapping is modelled as string key/value pairs. -/
structure ComponentHealth where
  name : String
  status : HealthStatus
  message : Option String := none
  details : Option (List (String × String)) := none
  response_time : Option ℚ := none
deriving DecidableEq, Repr

/-- Overall health record (health.py, `OverallHealth`). -/
structure OverallHealth where
  status : HealthStatus
  timestamp : String
  version : String
  uptime : ℚ
  components : List ComponentHealth
  metrics : Option (List (String × String)) := none
deriving DecidableEq, Repr

/-- Application version (config.py, `Settings.APP_VERSION`). -/
def APP_VERSION : String := "1.0.0"

/-- Each probe result gathered by `check_all` is either a `ComponentHealth`
or an exception (asyncio.gather with `return_exceptions=True`). -/
def gather_components (results : List (Except String ComponentHealth)) :
    List ComponentHealth :=
  results.map fun r =>
    match r with
    | .ok c => c
    | .error e =>
        { name := "unknown"
          status := .unhealthy
          message := some ("Health check failed: " ++ e) }

/-- Overall status computation of `HealthChecker.check_all`
(health.py lines 244-253): count unhealthy and degraded components and
apply worst-case precedence. -/
def overall_status (components : List ComponentHealth) : HealthStatus :=
  let unhealthy_count := components.countP fun c => decide (c.status = .unhealthy)
  let degraded_count := components.countP fun c => decide (c.status = .degraded)
  if unhealthy_count > 0 then .unhealthy
  else if degraded_count > 0 then .degraded
  else .healthy

/-- `HealthChecker.check_all` (health.py lines 225-265), as a function of
the gathered probe results and of the environment readings (timestamp,
uptime, metrics snapshot). -/
def check_all (results : List (Except String ComponentHealth))
    (ts : String) (uptime : ℚ) (metrics : Option (List (String × String))) :
    OverallHealth :=
  let components := gather_components results
  { status := overall_status components
    timestamp := ts
    version := APP_VERSION
    uptime := uptime
    components := components
    metrics := metrics }

/-- Alert severity levels (alerts.py, `AlertLevel`). -/
inductive AlertLevel where
  | info
  | warning
  | error
  | critical
deriving DecidableEq, Repr

/-- Alert object (alerts.py, `Alert`).  The creation timestamp
(`datetime.utcnow()`) is an explicit field, in seconds since an arbitrary
epoch; the derived `id` string is never read by the core logic and is kept
as a function below. -/
structure Alert where
  title : String
  message : String
  level : AlertLevel := .warning
  source : String := "SentimentSense"
  metadata : List (String × String) := []
  timestamp : Nat := 0
deriving DecidableEq, Repr

/-- Cooldown period of 15 minutes, in seconds (alerts.py line 55). -/
def cooldown_period : Nat := 15 * 60

/-- Mutable state of `AlertManager` (alerts.py lines 52-55): alert history
and per-key cooldown dictionary, both empty at construction. -/
structure AlertManagerState where
  alert_history : List Alert := []
  alert_cooldown : List (String × Nat) := []
deriving DecidableEq, Repr

/-- Lookup in the cooldown dictionary (keys are unique by construction). -/
def lookupCooldown (cd : List (String × Nat)) (key : String) : Option Nat :=
  (cd.find? fun p => p.1 == key).map (·.2)

/-- Dictionary assignment `self.alert_cooldown[alert_key] = now`: overwrite
an existing binding in place, otherwise append a new one. -/
def setCooldown (cd : List (String × Nat)) (key : String) (t : Nat) :
    List (String × Nat) :=
  if cd.any (fun p => p.1 == key) then
    cd.map fun p => if p.1 == key then (p.1, t) else p
  else cd ++ [(key, t)]

/-- `AlertManager._should_send_alert` (alerts.py lines 57-63): true when
the key has no cooldown entry, or when strictly more than the cooldown
period has passed since the last recorded dispatch. -/
def should_send_alert (st : AlertManagerState) (alert_key : String)
    (now : Nat) : Bool :=
  match lookupCooldown st.alert_cooldown alert_key with
  | none => true
  | some last_sent => decide (now - last_sent > cooldown_period)

/-- History append with truncation to the most recent 1000 entries
(alerts.py lines 74-76: `self.alert_history = self.alert_history[-1000:]`
when the length exceeds 1000). -/
def append_history (h : List Alert) (a : Alert) : List Alert :=
  let h2 := h ++ [a]
  if h2.length > 1000 then h2.drop (h2.length - 1000) else h2

/-- Which notification channels are configured (config.py lines 40-41:
`ALERT_EMAIL` and `ALERT_SLACK_WEBHOOK` are enabled iff the corresponding
environment variables are set). -/
structure ChannelConfig where
  alert_email : Bool
  alert_slack : Bool
deriving DecidableEq, Repr

/-- Outcome of the external delivery attempts during one `send_alert`
call: each field records whether the corresponding channel's try-block
completes without raising (the email sender only logs, the Slack sender
performs an HTTP post that may raise). -/
structure ChannelEnv where
  email_ok : Bool
  slack_ok : Bool
deriving DecidableEq, Repr

/-- Result of `AlertManager.send_alert`: the returned boolean, the updated
manager state, and the channels whose delivery was attempted, in program
order. -/
structure SendResult where
  delivered : Bool
  state : AlertManagerState
  attempted : List String
deriving DecidableEq, Repr

/-- Alert key `source + "_" + title` (alerts.py line 67). -/
def alertKey (a : Alert) : String := a.source ++ "_" ++ a.title

/-- `AlertManager.send_alert` (alerts.py lines 65-101): suppress under
cooldown and return false; otherwise append to history, attempt the email
channel and then the Slack channel, each configured channel under its own
try/except, and record the cooldown timestamp iff at least one channel
succeeded.  Returns success iff at least one channel succeeded. -/
def send_alert (st : AlertManagerState) (a : Alert) (now : Nat)
    (cfg : ChannelConfig) (env : ChannelEnv) : SendResult :=
  let key := alertKey a
  if ! should_send_alert st key now then
    { delivered := false, state := st, attempted := [] }
  else
    let hist := append_history st.alert_history a
    let attempted :=
      (if cfg.alert_email then ["email"] else []) ++
      (if cfg.alert_slack then ["slack"] else [])
    let success :=
      (cfg.alert_email && env.email_ok) || (cfg.alert_slack && env.slack_ok)
    let cd :=
      if success then setCooldown st.alert_cooldown key now
      else st.alert_cooldown
    { delivered := success
      state := { alert_history := hist, alert_cooldown := cd }
      attempted := attempted }

/-- `AlertManager.get_recent_alerts` (alerts.py lines 165-171): keep, in
original order, the alerts whose timestamp is strictly newer than
`now - hours` (the cutoff instant). -/
def get_recent_alerts (st : AlertManagerState) (now : Nat) (hours : Nat) :
    List Alert :=
  let cutoff_time := now - hours * 3600
  st.alert_history.filter fun a => decide (a.timestamp > cutoff_time)

/-- Fold a sequence of timed sends through the manager, collecting the
returned booleans in order. -/
def send_many (st : AlertManagerState) (sends : List (Alert × Nat))
    (cfg : ChannelConfig) (env : ChannelEnv) :
    AlertManagerState × List Bool :=
  match sends with
  | [] => (st, [])
  | (a, t) :: rest =>
    let r := send_alert st a t cfg env
    let rec' := send_many r.state rest cfg env
    (rec'.1, r.delivered :: rec'.2)

/-- Alert intent emitted by the health monitor: the alert built by one of
the `send_*_alert` convenience functions (alerts.py lines 179-200), before
it reaches the dispatcher. -/
structure AlertIntent where
  title : String
  message : String
  level : AlertLevel
deriving DecidableEq, Repr

/-- Mutable state of `HealthMonitor` (alerts.py lines 206-209). -/
structure MonitorState where
  last_health_status : Option HealthStatus := none
  consecutive_failures : Nat := 0
  max_failures : Nat := 3
deriving DecidableEq, Repr

/-- Status-change block of `HealthMonitor.check_and_alert`
(alerts.py lines 215-232): when a previous status is remembered and differs
from the current one, a change to unhealthy emits the error-level
"Service Health Degraded" alert, and a change from unhealthy to healthy
emits the info-level "Service Health Recovered" alert. -/
def transitionAlerts (last_opt : Option HealthStatus) (cur : HealthStatus) :
    List AlertIntent :=
  match last_opt with
  | none => []
  | some last =>
    if last ≠ cur then
      if cur = .unhealthy then
        [{ title := "Service Health Degraded"
           message := "Service status changed from " ++ last.toStr ++
             " to " ++ cur.toStr
           level := .error }]
      else if cur = .healthy ∧ last = .unhealthy then
        [{ title := "Service Health Recovered"
           message := "Service status recovered from " ++ last.toStr ++
             " to " ++ cur.toStr
           level := .info }]
      else []
    else []

/-- Consecutive-failure block of `HealthMonitor.check_and_alert`
(alerts.py lines 234-245): on an unhealthy observation the counter is
incremented and the critical "Service Continuously Unhealthy" alert is
emitted whenever the incremented counter is at least `max_failures`; on a
non-unhealthy observation the counter resets to zero.  Returns the new
counter value and the emission. -/
def failureUpdate (consecutive_failures max_failures : Nat)
    (cur : HealthStatus) : Nat × List AlertIntent :=
  if cur = .unhealthy then
    let cf := consecutive_failures + 1
    (cf,
     if cf ≥ max_failures then
       [{ title := "Service Continuously Unhealthy"
          message := "Service has been unhealthy for " ++ toString cf ++
            " consecutive checks"
          level := .critical }]
     else [])
  else (0, [])

/-- Component block of `HealthMonitor.check_and_alert`
(alerts.py lines 247-256): one warning-level alert per unhealthy component,
with the component's message when it is truthy. -/
def componentAlerts (comps : List ComponentHealth) : List AlertIntent :=
  (comps.filter fun c => decide (c.status = .unhealthy)).map fun c =>
    { title := "Component " ++ c.name ++ " Unhealthy"
      message :=
        match c.message with
        | some m =>
            if m.length = 0 then "Component " ++ c.name ++ " is not healthy"
            else m
        | none => "Component " ++ c.name ++ " is not healthy"
      level := .warning }

/-- `HealthMonitor.check_and_alert` (alerts.py lines 211-258): emit the
status-change alerts, then the consecutive-failure escalation, then the
per-component warnings, and finally remember the current status.
Emissions are returned in program order. -/
def check_and_alert (st : MonitorState) (h : OverallHealth) :
    MonitorState × List AlertIntent :=
  let current_status := h.status
  let fu := failureUpdate st.consecutive_failures st.max_failures current_status
  ({ last_health_status := some current_status
     consecutive_failures := fu.1
     max_failures := st.max_failures },
   transitionAlerts st.last_health_status current_status ++ fu.2 ++
     componentAlerts h.components)

/-- Wrap a bare overall status in an `OverallHealth` document with no
components, as produced by an aggregation cycle whose probe list is empty. -/
def statusOnly (s : HealthStatus) : OverallHealth :=
  { status := s, timestamp := "", version := APP_VERSION, uptime := 0
    components := [] }

/-- Feed a sequence of observed overall statuses through a fresh monitor,
collecting each observation's emissions. -/
def run_monitor_statuses (sts : List HealthStatus) : List (List AlertIntent) :=
  (sts.foldl (fun acc s =>
      let r := check_and_alert acc.1 (statusOnly s)
      (r.1, acc.2 ++ [r.2]))
    (({} : MonitorState), ([] : List (List AlertIntent)))).2

/-- The suffix of the most recent `n` entries of a list (`l[-n:]`). -/
def lastN (n : Nat) (l : List α) : List α := l.drop (l.length - n)

/-- The dedicated status-transition alerts among a list of emissions: the
error-level and info-level ones (the escalation alert is critical-level and
the per-component alerts are warning-level). -/
def transition_alerts_of (out : List AlertIntent) : List AlertIntent :=
  out.filter fun a => decide (a.level = .error ∨ a.level = .info)

/-- Concrete run of `capacity + 1` alerts used to instantiate the history
bound at a non-vacuous input. -/
def witnessAlerts : List Alert :=
  (List.range 1001).map fun i =>
    { title := "t", message := "", timestamp := i + 1 }

/-- Environment of `HealthChecker._check_model` (health.py lines 55-98):
either importing/`is_healthy` raises (outer handler), or the analyzer
reports not healthy, or the trial inference raises (inner handler), or the
trial inference returns a result. -/
inductive ModelEnv where
  | healthCheckRaises (msg : String)
  | notHealthy
  | inferRaises (msg : String)
  | inferOk
deriving DecidableEq, Repr

/-- Loaded-model name (config.py line 20, default value). -/
def MODEL_NAME : String := "cardiffnlp/twitter-roberta-base-sentiment-latest"

/-- `HealthChecker._check_model` (health.py lines 55-98), as a function of
the environment outcome and the elapsed probe time. -/
def check_model (env : ModelEnv) (rt : ℚ) : ComponentHealth :=
  match env with
  | .healthCheckRaises msg =>
      { name := "model", status := .unhealthy
        message := some ("Model check failed: " ++ msg)
        response_time := some rt }
  | .notHealthy =>
      { name := "model", status := .unhealthy
        message := some "Model not loaded or not healthy"
        response_time := some rt }
  | .inferRaises msg =>
      { name := "model", status := .degraded
        message := some ("Model loaded but inference failed: " ++ msg)
        response_time := some rt }
  | .inferOk =>
      { name := "model", status := .healthy
        message := some "Model is loaded and functional"
        details := some [("model_name", MODEL_NAME), ("model_loaded", "True")]
        response_time := some rt }

/-- Environment of `HealthChecker._check_memory` (health.py lines 100-138):
the psutil reading either raises or yields a usage percentage. -/
inductive MemoryEnv where
  | psutilRaises (msg : String)
  | reading (percent : ℚ)
deriving DecidableEq, Repr

/-- Render a percentage the way the probes' messages do.  The Python code
formats with one decimal digit; the exact rendering is irrelevant to every
claim, so the number is shown as a rational. -/
def fmtPercent (q : ℚ) : String := toString q

/-- `HealthChecker._check_memory` (health.py lines 100-138): thresholds
>90 unhealthy, >80 degraded, else healthy; a raised exception becomes an
unhealthy result.  The `details` totals are summarized by the percentage. -/
def check_memory (env : MemoryEnv) (rt : ℚ) : ComponentHealth :=
  match env with
  | .psutilRaises msg =>
      { name := "memory", status := .unhealthy
        message := some ("Memory check failed: " ++ msg)
        response_time := some rt }
  | .reading percent =>
      if percent > 90 then
        { name := "memory", status := .unhealthy
          message := some ("High memory usage: " ++ fmtPercent percent ++ "%")
          details := some [("percent", fmtPercent percent)]
          response_time := some rt }
      else if percent > 80 then
        { name := "memory", status := .degraded
          message := some ("Elevated memory usage: " ++ fmtPercent percent ++ "%")
          details := some [("percent", fmtPercent percent)]
          response_time := some rt }
      else
        { name := "memory", status := .healthy
          message := some ("Memory usage normal: " ++ fmtPercent percent ++ "%")
          details := some [("percent", fmtPercent percent)]
          response_time := some rt }

/-- Environment of `HealthChecker._check_disk` (health.py lines 140-179):
the psutil reading either raises or yields used and total byte counts
(total nonzero on a real filesystem). -/
inductive DiskEnv where
  | psutilRaises (msg : String)
  | reading (used total : ℚ)
deriving DecidableEq, Repr

/-- `HealthChecker._check_disk` (health.py lines 140-179): percentage
computed as used/total*100, thresholds >90 unhealthy, >80 degraded, else
healthy; a raised exception becomes a DEGRADED result (unlike the memory
probe). -/
def check_disk (env : DiskEnv) (rt : ℚ) : ComponentHealth :=
  match env with
  | .psutilRaises msg =>
      { name := "disk", status := .degraded
        message := some ("Disk check failed: " ++ msg)
        response_time := some rt }
  | .reading used total =>
      let percent := used / total * 100
      if percent > 90 then
        { name := "disk", status := .unhealthy
          message := some ("High disk usage: " ++ fmtPercent percent ++ "%")
          details := some [("percent", fmtPercent percent)]
          response_time := some rt }
      else if percent > 80 then
        { name := "disk", status := .degraded
          message := some ("Elevated disk usage: " ++ fmtPercent percent ++ "%")
          details := some [("percent", fmtPercent percent)]
          response_time := some rt }
      else
        { name := "disk", status := .healthy
          message := some ("Disk usage normal: " ++ fmtPercent percent ++ "%")
          details := some [("percent", fmtPercent percent)]
          response_time := some rt }

/-- Environment of `HealthChecker._check_dependencies`
(health.py lines 181-223): either the check itself raises, or it yields
the list of critical modules that failed to import. -/
inductive DepsEnv where
  | raises (msg : String)
  | missing (mods : List String)
deriving DecidableEq, Repr

/-- `HealthChecker._check_dependencies` (health.py lines 181-223): any
missing critical module gives an unhealthy result, no missing module gives
a healthy one, and a raised exception becomes an unhealthy result. -/
def check_dependencies (env : DepsEnv) (rt : ℚ) : ComponentHealth :=
  match env with
  | .raises msg =>
      { name := "dependencies", status := .unhealthy
        message := some ("Dependency check failed: " ++ msg)
        response_time := some rt }
  | .missing mods =>
      if mods.isEmpty then
        { name := "dependencies", status := .healthy
          message := some "All critical dependencies available"
          details := some [("modules", "torch, transformers, fastapi, uvicorn")]
          response_time := some rt }
      else
        { name := "dependencies", status := .unhealthy
          message := some ("Missing critical modules: " ++
            String.intercalate ", " mods)
          response_time := some rt }

/-- Maximum accepted text length (config.py line 21, default value). -/
def MAX_TEXT_LENGTH : Nat := 512

/-- Maximum batch size (config.py line 22, default value). -/
def BATCH_SIZE_LIMIT : Nat := 10

/-- `SentimentAnalyzer._preprocess_text` (sentiment.py lines 55-65):
strip surrounding whitespace and truncate to `MAX_TEXT_LENGTH`. -/
def preprocess_text (text : String) : String :=
  let t := text.trim
  if t.length > MAX_TEXT_LENGTH then t.take MAX_TEXT_LENGTH else t

/-- Label normalization table of `SentimentAnalyzer._postprocess_result`
(sentiment.py lines 72-90): `label_mapping.get(best_label, best_label)`. -/
def label_mapping (l : String) : String :=
  if l = "LABEL_0" then "NEGATIVE"
  else if l = "LABEL_1" then "NEUTRAL"
  else if l = "LABEL_2" then "POSITIVE"
  else if l = "NEGATIVE" then "NEGATIVE"
  else if l = "POSITIVE" then "POSITIVE"
  else if l = "negative" then "NEGATIVE"
  else if l = "positive" then "POSITIVE"
  else if l = "neutral" then "NEUTRAL"
  else l

/-- Python dictionary built by the comprehension on sentiment.py line 70:
keys in first-insertion order, a duplicate label overwriting the stored
score in place. -/
def build_scores (result : List (String × ℚ)) : List (String × ℚ) :=
  result.foldl (fun acc kv =>
    if acc.any (fun p => p.1 == kv.1) then
      acc.map fun p => if p.1 == kv.1 then (p.1, kv.2) else p
    else acc ++ [kv]) []

/-- `max(scores.keys(), key=lambda k: scores[k])` over the dictionary
entries: the first entry with the maximal score (Python's `max` keeps the
earliest maximal element). -/
def argmaxScore (scores : List (String × ℚ)) : Option (String × ℚ) :=
  scores.foldl (fun best kv =>
    match best with
    | none => some kv
    | some b => if kv.2 > b.2 then some kv else some b) none

/-- Dictionary read `scores.get(key, default)`. -/
def getScore (scores : List (String × ℚ)) (key : String) (default : ℚ) : ℚ :=
  match (scores.find? fun p => p.1 == key).map (·.2) with
  | some v => v
  | none => default

/-- Positive-class raw score fallback chain (sentiment.py line 96). -/
def pos_score (scores : List (String × ℚ)) : ℚ :=
  getScore scores "LABEL_2" (getScore scores "POSITIVE" (getScore scores "positive" 0))

/-- Negative-class raw score fallback chain (sentiment.py line 97). -/
def neg_score (scores : List (String × ℚ)) : ℚ :=
  getScore scores "LABEL_0" (getScore scores "NEGATIVE" (getScore scores "negative" 0))

/-- `SentimentAnalyzer._postprocess_result` (sentiment.py lines 67-106):
build the score dictionary, take the highest-scoring label, normalize it,
and collapse a winning NEUTRAL verdict into POSITIVE or NEGATIVE by
comparing the raw positive and negative class scores.  Returns `none` when
the model output is empty (Python `max` raises there). -/
def postprocess_result (result : List (String × ℚ)) : Option (String × ℚ) :=
  let scores := build_scores result
  match argmaxScore scores with
  | none => none
  | some best =>
    let sentiment := label_mapping best.1
    let best_score := best.2
    if (scores.any fun p => label_mapping p.1 == "NEUTRAL") ∧
        sentiment = "NEUTRAL" then
      let ps := pos_score scores
      let ns := neg_score scores
      if ps > ns then some ("POSITIVE", ps) else some ("NEGATIVE", ns)
    else some (sentiment, best_score)

/-- Environment of one `analyze_single` call (sentiment.py lines 108-141):
the classifier pipeline either raises or yields `result[0]`, a list of
label/score pairs; the wall-clock processing time is a reading. -/
structure InferEnv where
  classify : String → Except String (List (String × ℚ))
  elapsed : String → ℚ

/-- `SentimentAnalyzer.analyze_single` (sentiment.py lines 108-141):
raise when the model is not loaded, otherwise preprocess, classify and
postprocess, re-raising any failure. -/
def analyze_single (env : InferEnv) (model_loaded : Bool) (text : String) :
    Except String (String × ℚ × ℚ) :=
  if model_loaded = false then .error "Model not loaded"
  else
    match env.classify (preprocess_text text) with
    | .error e => .error e
    | .ok res =>
      match postprocess_result res with
      | none => .error "max() arg is an empty sequence"
      | some (sentiment, confidence) =>
          .ok (sentiment, confidence, env.elapsed text)

/-- `SentimentAnalyzer.analyze_batch` (sentiment.py lines 143-170): raise
when the model is not loaded or the batch exceeds `BATCH_SIZE_LIMIT`;
otherwise analyze each text, replacing a failed item by the sentinel
`("NEGATIVE", 0.0, 0.0)`. -/
def analyze_batch (env : InferEnv) (model_loaded : Bool)
    (texts : List String) : Except String (List (String × ℚ × ℚ)) :=
  if model_loaded = false then .error "Model not loaded"
  else if texts.length > BATCH_SIZE_LIMIT then
    .error "Batch size exceeds limit"
  else
    .ok (texts.map fun text =>
      match analyze_single env model_loaded text with
      | .ok r => r
      | .error _ => ("NEGATIVE", 0, 0))

end SentimentSense

namespace SentimentSense

/-- C1: the status returned by `check_all` is Unhealthy iff some component
is Unhealthy, Degraded iff none is Unhealthy and some is Degraded, Healthy
otherwise, and in particular Healthy on an empty component list. -/
theorem check_all_status_spec
    (results : List (Except String ComponentHealth))
    (ts : String) (uptime : ℚ) (metrics : Option (List (String × String))) :
    let oh := check_all results ts uptime metrics
    ((oh.status = .unhealthy ↔ ∃ c ∈ oh.components, c.status = .unhealthy) ∧
     (oh.status = .degraded ↔
       (¬ ∃ c ∈ oh.components, c.status = .unhealthy) ∧
       ∃ c ∈ oh.components, c.status = .degraded) ∧
     (oh.status = .healthy ↔
       (¬ ∃ c ∈ oh.components, c.status = .unhealthy) ∧
       ¬ ∃ c ∈ oh.components, c.status = .degraded) ∧
     (oh.components = [] → oh.status = .healthy)) := by
  intro oh
  have hcomp : oh.components = gather_components results := rfl
  have hstat : oh.status = overall_status (gather_components results) := rfl
  set cs := gather_components results with hcs
  have hu : (0 < cs.countP fun c => decide (c.status = .unhealthy)) ↔
      ∃ c ∈ cs, c.status = .unhealthy := by
    rw [List.countP_pos_iff]
    simp
  have hd : (0 < cs.countP fun c => decide (c.status = .degraded)) ↔
      ∃ c ∈ cs, c.status = .degraded := by
    rw [List.countP_pos_iff]
    simp
  rw [hcomp, hstat]
  simp only [overall_status]
  by_cases h1 : (cs.countP fun c => decide (c.status = HealthStatus.unhealthy)) > 0
  · have hEu := hu.mp h1
    rw [if_pos h1]
    refine ⟨⟨fun _ => hEu, fun _ => rfl⟩,
      ⟨fun h => (nomatch h), fun hp => absurd hEu hp.1⟩,
      ⟨fun h => (nomatch h), fun hp => absurd hEu hp.1⟩, fun hempty => ?_⟩
    rw [hempty] at hEu
    exact absurd hEu (by simp)
  · have hnu : ¬ ∃ c ∈ cs, c.status = HealthStatus.unhealthy :=
      fun h => h1 (hu.mpr h)
    rw [if_neg h1]
    by_cases h2 : (cs.countP fun c => decide (c.status = HealthStatus.degraded)) > 0
    · have hEd := hd.mp h2
      rw [if_pos h2]
      refine ⟨⟨fun h => (nomatch h), fun hp => absurd hp hnu⟩,
        ⟨fun _ => ⟨hnu, hEd⟩, fun _ => rfl⟩,
        ⟨fun h => (nomatch h), fun hp => absurd hEd hp.2⟩, fun hempty => ?_⟩
      rw [hempty] at hEd
      exact absurd hEd (by simp)
    · have hnd : ¬ ∃ c ∈ cs, c.status = HealthStatus.degraded :=
        fun h => h2 (hd.mpr h)
      rw [if_neg h2]
      exact ⟨⟨fun h => (nomatch h), fun hp => absurd hp hnu⟩,
        ⟨fun h => (nomatch h), fun hp => absurd hp.2 hnd⟩,
        ⟨fun _ => ⟨hnu, hnd⟩, fun _ => rfl⟩, fun _ => rfl⟩

/-- Witness for C1 at a concrete non-vacuous input: one healthy and one
degraded component give an overall Degraded status with the three
characterizations holding. -/
theorem check_all_status_spec_witness :
    (let oh := check_all
        [.ok { name := "model", status := .healthy },
         .ok { name := "memory", status := .degraded }] "t" 0 none
     ((oh.status = .unhealthy ↔ ∃ c ∈ oh.components, c.status = .unhealthy) ∧
      (oh.status = .degraded ↔
        (¬ ∃ c ∈ oh.components, c.status = .unhealthy) ∧
        ∃ c ∈ oh.components, c.status = .degraded) ∧
      (oh.status = .healthy ↔
        (¬ ∃ c ∈ oh.components, c.status = .unhealthy) ∧
        ¬ ∃ c ∈ oh.components, c.status = .degraded) ∧
      (oh.components = [] → oh.status = .healthy))) :=
  check_all_status_spec
    [.ok { name := "model", status := .healthy },
     .ok { name := "memory", status := .degraded }] "t" 0 none

theorem lastN_eq (n : Nat) (l : List α) :
    lastN n l = (l.reverse.take n).reverse := by
  have h := List.reverse_take (l := l.reverse) (n := n)
  simp only [List.reverse_reverse, List.length_reverse] at h
  exact h.symm

theorem take_append_take (a b : List α) (n : Nat) :
    (a ++ b.take n).take n = (a ++ b).take n := by
  rw [List.take_append_eq_append_take, List.take_append_eq_append_take,
    List.take_take, Nat.min_eq_left (Nat.sub_le n a.length)]

theorem lastN_lastN_append (n : Nat) (x y : List α) :
    lastN n (lastN n x ++ y) = lastN n (x ++ y) := by
  simp only [lastN_eq, List.reverse_append, List.reverse_reverse,
    take_append_take]

theorem append_history_eq_lastN (h : List Alert) (a : Alert) :
    append_history h a = lastN 1000 (h ++ [a]) := by
  simp only [append_history, lastN]
  split_ifs with hgt
  · rfl
  · have h0 : (h ++ [a]).length - 1000 = 0 := by omega
    rw [h0, List.drop_zero]

theorem foldl_append_history (l : List Alert) :
    ∀ h : List Alert, l.foldl append_history (lastN 1000 h) =
      lastN 1000 (h ++ l) := by
  induction l with
  | nil =>
    intro h
    simp
  | cons a tl ih =>
    intro h
    rw [List.foldl_cons, append_history_eq_lastN, lastN_lastN_append,
      ih (h ++ [a])]
    simp

theorem foldl_append_history_nil (l : List Alert) :
    l.foldl append_history [] = lastN 1000 l := by
  have h := foldl_append_history l []
  simpa [lastN] using h

/-- C7: after appending `1000 + k` alerts through the dispatcher's
history-update step, the history holds exactly the 1000 most recent alerts
in original order, and a `get_recent_alerts` query whose window covers all
of them returns exactly that history. -/
theorem alert_history_bound_spec (l : List Alert) (k now hours : Nat)
    (hlen : l.length = 1000 + k)
    (hts : ∀ a ∈ l, now - hours * 3600 < a.timestamp) :
    l.foldl append_history [] = l.drop k ∧
    (l.foldl append_history []).length = 1000 ∧
    get_recent_alerts
      { alert_history := l.foldl append_history []
        alert_cooldown := [] } now hours = l.foldl append_history [] := by
  have hfold := foldl_append_history_nil l
  have hdrop : lastN 1000 l = l.drop k := by
    have hk : l.length - 1000 = k := by omega
    unfold lastN
    rw [hk]
  refine ⟨hfold.trans hdrop, ?_, ?_⟩
  · rw [hfold.trans hdrop, List.length_drop]
    omega
  · unfold get_recent_alerts
    dsimp only
    rw [List.filter_eq_self]
    intro a ha
    have hal : a ∈ l := by
      rw [hfold.trans hdrop] at ha
      exact List.mem_of_mem_drop ha
    simpa using hts a hal

/-- Witness for C7 at 1001 concrete alerts with any-time coverage. -/
theorem alert_history_bound_spec_witness :
    witnessAlerts.length = 1000 + 1 ∧
    (∀ a ∈ witnessAlerts, 0 - 1 * 3600 < a.timestamp) ∧
    (witnessAlerts.foldl append_history [] = witnessAlerts.drop 1 ∧
     (witnessAlerts.foldl append_history []).length = 1000 ∧
     get_recent_alerts
       { alert_history := witnessAlerts.foldl append_history []
         alert_cooldown := [] } 0 1 = witnessAlerts.foldl append_history []) := by
  have hlen : witnessAlerts.length = 1000 + 1 := by
    simp [witnessAlerts]
  have hts : ∀ a ∈ witnessAlerts, 0 - 1 * 3600 < a.timestamp := by
    intro a ha
    simp only [witnessAlerts, List.mem_map, List.mem_range] at ha
    obtain ⟨i, _, rfl⟩ := ha
    simp
  exact ⟨hlen, hts, alert_history_bound_spec witnessAlerts 1 0 1 hlen hts⟩

theorem lookupCooldown_setCooldown (cd : List (String × Nat)) (k : String)
    (t : Nat) : lookupCooldown (setCooldown cd k t) k = some t := by
  induction cd with
  | nil =>
    simp [setCooldown, lookupCooldown]
  | cons hd tl ih =>
    unfold lookupCooldown at ih ⊢
    by_cases hk : (hd.1 == k) = true
    · have hany : ((hd :: tl).any fun p => p.1 == k) = true := by
        simp [List.any_cons, hk]
      rw [setCooldown, if_pos hany, List.map_cons, if_pos hk]
      rw [List.find?_cons_of_pos _ (by simpa using hk)]
      simp
    · have hk2 : (hd.1 == k) = false := by simpa using hk
      by_cases hany : (tl.any fun p => p.1 == k) = true
      · have hany1 : ((hd :: tl).any fun p => p.1 == k) = true := by
          simp [List.any_cons, hany]
        have h2 : setCooldown tl k t =
            tl.map fun p => if p.1 == k then (p.1, t) else p := by
          rw [setCooldown, if_pos hany]
        rw [setCooldown, if_pos hany1, List.map_cons, if_neg hk,
          List.find?_cons_of_neg _ (by simp [hk2]), ← h2]
        exact ih
      · have hany0 : (tl.any fun p => p.1 == k) = false :=
          Bool.eq_false_iff.mpr hany
        have hany1 : ((hd :: tl).any fun p => p.1 == k) = false := by
          simp [List.any_cons, hk2, hany0]
        have h2 : setCooldown tl k t = tl ++ [(k, t)] := by
          rw [setCooldown, if_neg (by simp [hany0])]
        rw [setCooldown, if_neg (by simp [hany1]), List.cons_append,
          List.find?_cons_of_neg _ (by simp [hk2]), ← h2]
        exact ih

theorem send_alert_suppressed (st : AlertManagerState) (a : Alert) (now : Nat)
    (cfg : ChannelConfig) (env : ChannelEnv)
    (hs : should_send_alert st (alertKey a) now = false) :
    send_alert st a now cfg env =
      { delivered := false, state := st, attempted := [] } := by
  unfold send_alert
  simp [hs]

theorem send_alert_state_of_pass (st : AlertManagerState) (a : Alert)
    (now : Nat) (cfg : ChannelConfig) (env : ChannelEnv)
    (hs : should_send_alert st (alertKey a) now = true) :
    send_alert st a now cfg env =
      { delivered :=
          (cfg.alert_email && env.email_ok) || (cfg.alert_slack && env.slack_ok)
        state :=
          { alert_history := append_history st.alert_history a
            alert_cooldown :=
              if (cfg.alert_email && env.email_ok) ||
                  (cfg.alert_slack && env.slack_ok) then
                setCooldown st.alert_cooldown (alertKey a) now
              else st.alert_cooldown }
        attempted :=
          (if cfg.alert_email then ["email"] else []) ++
          (if cfg.alert_slack then ["slack"] else []) } := by
  unfold send_alert
  simp [hs]

/-- C4: a dispatch that passes the cooldown check attempts every configured
channel independently of the delivery outcomes, returns true iff at least
one configured channel's delivery succeeded, records the cooldown
timestamp for the alert's key exactly when delivery succeeded, and appends
the alert to the history. -/
theorem send_alert_dispatch_spec (st : AlertManagerState) (a : Alert)
    (now : Nat) (cfg : ChannelConfig) (env : ChannelEnv)
    (hs : should_send_alert st (alertKey a) now = true) :
    ((send_alert st a now cfg env).attempted =
      (if cfg.alert_email then ["email"] else []) ++
      (if cfg.alert_slack then ["slack"] else [])) ∧
    ((send_alert st a now cfg env).delivered = true ↔
      ((cfg.alert_email = true ∧ env.email_ok = true) ∨
       (cfg.alert_slack = true ∧ env.slack_ok = true))) ∧
    ((send_alert st a now cfg env).delivered = true →
      lookupCooldown (send_alert st a now cfg env).state.alert_cooldown
        (alertKey a) = some now) ∧
    ((send_alert st a now cfg env).delivered = false →
      (send_alert st a now cfg env).state.alert_cooldown =
        st.alert_cooldown) ∧
    (send_alert st a now cfg env).state.alert_history =
      append_history st.alert_history a := by
  rw [send_alert_state_of_pass st a now cfg env hs]
  refine ⟨rfl, ?_, ?_, ?_, rfl⟩
  · simp
  · intro hd
    simp only at hd
    simp only [hd, if_pos]
    exact lookupCooldown_setCooldown st.alert_cooldown (alertKey a) now
  · intro hd
    simp only at hd
    simp [hd]

/-- Witness for C4: a fresh manager, an email-only configuration and a
succeeding email attempt. -/
theorem send_alert_dispatch_spec_witness :
    should_send_alert {} (alertKey { title := "T", message := "m" }) 0 =
      true ∧
    (((send_alert {} { title := "T", message := "m" } 0 ⟨true, false⟩
        ⟨true, true⟩).attempted =
      (if true then ["email"] else []) ++ (if false then ["slack"] else [])) ∧
     ((send_alert {} { title := "T", message := "m" } 0 ⟨true, false⟩
        ⟨true, true⟩).delivered = true ↔
       ((true = true ∧ true = true) ∨ (false = true ∧ true = true))) ∧
     ((send_alert {} { title := "T", message := "m" } 0 ⟨true, false⟩
        ⟨true, true⟩).delivered = true →
       lookupCooldown (send_alert {} { title := "T", message := "m" } 0
         ⟨true, false⟩ ⟨true, true⟩).state.alert_cooldown
         (alertKey { title := "T", message := "m" }) = some 0) ∧
     ((send_alert {} { title := "T", message := "m" } 0 ⟨true, false⟩
        ⟨true, true⟩).delivered = false →
       (send_alert {} { title := "T", message := "m" } 0 ⟨true, false⟩
         ⟨true, true⟩).state.alert_cooldown =
         AlertManagerState.alert_cooldown {}) ∧
     (send_alert {} { title := "T", message := "m" } 0 ⟨true, false⟩
       ⟨true, true⟩).state.alert_history =
       append_history (AlertManagerState.alert_history {})
         { title := "T", message := "m" }) :=
  ⟨rfl, send_alert_dispatch_spec {} { title := "T", message := "m" } 0
    ⟨true, false⟩ ⟨true, true⟩ rfl⟩

/-- C3: after a successful dispatch at time `t1`, a second send of an alert
with the same key at time `t2` is suppressed (returns false, leaves the
state untouched and attempts no channel) when less than the cooldown
window has passed, and is delivered again once more than the window has
elapsed and a configured channel succeeds. -/
theorem send_alert_cooldown_window_spec (st : AlertManagerState)
    (a1 a2 : Alert) (t1 t2 : Nat) (cfg : ChannelConfig)
    (env1 env2 : ChannelEnv)
    (hkey : alertKey a2 = alertKey a1)
    (h1 : (send_alert st a1 t1 cfg env1).delivered = true) :
    (t2 - t1 < cooldown_period →
      send_alert (send_alert st a1 t1 cfg env1).state a2 t2 cfg env2 =
        { delivered := false
          state := (send_alert st a1 t1 cfg env1).state
          attempted := [] }) ∧
    (cooldown_period < t2 - t1 →
      ((cfg.alert_email && env2.email_ok) ||
        (cfg.alert_slack && env2.slack_ok)) = true →
      (send_alert (send_alert st a1 t1 cfg env1).state a2 t2 cfg
        env2).delivered = true) := by
  have hs1 : should_send_alert st (alertKey a1) t1 = true := by
    by_contra hns
    have hf : should_send_alert st (alertKey a1) t1 = false :=
      Bool.eq_false_iff.mpr hns
    rw [send_alert_suppressed st a1 t1 cfg env1 hf] at h1
    simp at h1
  have hsucc : ((cfg.alert_email && env1.email_ok) ||
      (cfg.alert_slack && env1.slack_ok)) = true := by
    rw [send_alert_state_of_pass st a1 t1 cfg env1 hs1] at h1
    simpa using h1
  have hcd : (send_alert st a1 t1 cfg env1).state.alert_cooldown =
      setCooldown st.alert_cooldown (alertKey a1) t1 := by
    rw [send_alert_state_of_pass st a1 t1 cfg env1 hs1]
    simp [hsucc]
  have hss2 : should_send_alert (send_alert st a1 t1 cfg env1).state
      (alertKey a2) t2 = decide (t2 - t1 > cooldown_period) := by
    unfold should_send_alert
    rw [hkey, hcd, lookupCooldown_setCooldown]
  refine ⟨?_, ?_⟩
  · intro hlt
    have hsf : should_send_alert (send_alert st a1 t1 cfg env1).state
        (alertKey a2) t2 = false := by
      rw [hss2]
      simp only [decide_eq_false_iff_not]
      omega
    exact send_alert_suppressed _ a2 t2 cfg env2 hsf
  · intro hgt hsucc2
    have hst : should_send_alert (send_alert st a1 t1 cfg env1).state
        (alertKey a2) t2 = true := by
      rw [hss2]
      simpa using hgt
    rw [send_alert_state_of_pass _ a2 t2 cfg env2 hst]
    simpa using hsucc2

/-- Witness for C3: a delivered first send at time 0 followed by a second
send of the same alert at time 100, inside the 900-second window. -/
theorem send_alert_cooldown_window_spec_witness :
    alertKey { title := "T", message := "m" } =
      alertKey { title := "T", message := "m" } ∧
    (send_alert {} { title := "T", message := "m" } 0 ⟨true, false⟩
      ⟨true, true⟩).delivered = true ∧
    ((100 - 0 < cooldown_period →
      send_alert (send_alert {} { title := "T", message := "m" } 0
        ⟨true, false⟩ ⟨true, true⟩).state { title := "T", message := "m" }
        100 ⟨true, false⟩ ⟨true, true⟩ =
        { delivered := false
          state := (send_alert {} { title := "T", message := "m" } 0
            ⟨true, false⟩ ⟨true, true⟩).state
          attempted := [] }) ∧
     (cooldown_period < 100 - 0 →
      ((true && true) || (false && true)) = true →
      (send_alert (send_alert {} { title := "T", message := "m" } 0
        ⟨true, false⟩ ⟨true, true⟩).state { title := "T", message := "m" }
        100 ⟨true, false⟩ ⟨true, true⟩).delivered = true)) :=
  ⟨rfl, rfl,
    send_alert_cooldown_window_spec {} { title := "T", message := "m" }
      { title := "T", message := "m" } 0 100 ⟨true, false⟩ ⟨true, true⟩
      ⟨true, true⟩ rfl rfl⟩

theorem send_many_no_channels (sends : List (Alert × Nat))
    (env : ChannelEnv) :
    ∀ hist : List Alert,
      send_many { alert_history := hist, alert_cooldown := [] } sends
        ⟨false, false⟩ env =
        ({ alert_history := (sends.map Prod.fst).foldl append_history hist
           alert_cooldown := [] }, List.replicate sends.length false) := by
  induction sends with
  | nil =>
    intro hist
    rfl
  | cons s rest ih =>
    intro hist
    obtain ⟨a, t⟩ := s
    have hs : should_send_alert { alert_history := hist, alert_cooldown := [] }
        (alertKey a) t = true := rfl
    rw [send_many, send_alert_state_of_pass _ a t ⟨false, false⟩ env hs]
    simp only [Bool.false_and, Bool.or_self, Bool.false_eq_true, if_false]
    simp [ih (append_history hist a), List.replicate_succ]

/-- C10: with no notification channel configured, a send that passes the
cooldown check still appends to history but returns false and leaves the
cooldown map untouched; consequently, from a fresh manager, every send of
an arbitrary sequence returns false, none is suppressed, and every alert
reaches the (bounded) history. -/
theorem send_alert_unconfigured_spec (st : AlertManagerState) (a : Alert)
    (now : Nat) (env env2 : ChannelEnv) (sends : List (Alert × Nat))
    (hs : should_send_alert st (alertKey a) now = true) :
    (send_alert st a now ⟨false, false⟩ env =
      { delivered := false
        state :=
          { alert_history := append_history st.alert_history a
            alert_cooldown := st.alert_cooldown }
        attempted := [] }) ∧
    (send_many {} sends ⟨false, false⟩ env2 =
      ({ alert_history := (sends.map Prod.fst).foldl append_history []
         alert_cooldown := [] }, List.replicate sends.length false)) := by
  constructor
  · rw [send_alert_state_of_pass st a now ⟨false, false⟩ env hs]
    simp
  · exact send_many_no_channels sends env2 []

/-- Witness for C10: a fresh manager and two sends of the same alert. -/
theorem send_alert_unconfigured_spec_witness :
    should_send_alert {} (alertKey { title := "T", message := "m" }) 0 =
      true ∧
    ((send_alert {} { title := "T", message := "m" } 0 ⟨false, false⟩
        ⟨true, true⟩ =
      { delivered := false
        state :=
          { alert_history := append_history (AlertManagerState.alert_history {})
              { title := "T", message := "m" }
            alert_cooldown := AlertManagerState.alert_cooldown {} }
        attempted := [] }) ∧
     (send_many {} [({ title := "T", message := "m" }, 0),
        ({ title := "T", message := "m" }, 1)] ⟨false, false⟩ ⟨true, true⟩ =
      ({ alert_history :=
           ([({ title := "T", message := "m" }, 0),
             ({ title := "T", message := "m" }, 1)].map Prod.fst).foldl
             append_history []
         alert_cooldown := [] },
       List.replicate
         ([({ title := "T", message := "m" }, 0),
           ({ title := "T", message := "m" }, 1)] :
             List (Alert × Nat)).length false))) :=
  ⟨rfl, send_alert_unconfigured_spec {} { title := "T", message := "m" } 0
    ⟨true, true⟩ ⟨true, true⟩
    [({ title := "T", message := "m" }, 0),
     ({ title := "T", message := "m" }, 1)] rfl⟩

/-- C2: evaluation of the tracker at the failing input.  With the default
threshold 3, the status sequence [Healthy, Unhealthy, Unhealthy, Unhealthy,
Unhealthy] makes `check_and_alert` emit the critical "Service Continuously
Unhealthy" alert on BOTH the third and the fourth consecutive unhealthy
observation: the guard `consecutive_failures >= max_failures`
(alerts.py line 237) re-fires on every cycle at or above the threshold,
not once per crossing. -/
theorem critical_alert_refires_at_and_above_threshold :
    (run_monitor_statuses
        [.healthy, .unhealthy, .unhealthy, .unhealthy, .unhealthy]).map
      (fun out => out.countP fun a =>
        decide (a.title = "Service Continuously Unhealthy" ∧
          a.level = .critical)) = [0, 0, 0, 1, 1] := by
  decide

/-- C5 counterexample: on the very first observation (uninitialized
tracker) an unhealthy component already makes `check_and_alert` emit a
warning alert, so "no alert fires on the very first observation" is false
as stated. -/
theorem first_observation_can_emit_alert :
    (check_and_alert {} { statusOnly HealthStatus.unhealthy with
        components := [{ name := "model", status := .unhealthy }] }).2 ≠
      [] := by
  decide

theorem transition_alerts_of_append (xs ys : List AlertIntent) :
    transition_alerts_of (xs ++ ys) =
      transition_alerts_of xs ++ transition_alerts_of ys := by
  simp [transition_alerts_of]

theorem transition_alerts_of_failureUpdate (cf mf : Nat)
    (cur : HealthStatus) :
    transition_alerts_of (failureUpdate cf mf cur).2 = [] := by
  by_cases hcur : cur = .unhealthy
  · by_cases hge : cf + 1 ≥ mf
    · simp [failureUpdate, hcur, hge, transition_alerts_of]
    · simp [failureUpdate, hcur, hge, transition_alerts_of]
  · simp [failureUpdate, hcur, transition_alerts_of]

theorem transition_alerts_of_componentAlerts
    (comps : List ComponentHealth) :
    transition_alerts_of (componentAlerts comps) = [] := by
  unfold componentAlerts transition_alerts_of
  rw [List.filter_eq_nil_iff]
  intro a ha
  simp only [List.mem_map] at ha
  obtain ⟨c, _, rfl⟩ := ha
  simp

/-- C5 (amended): on the very first observation no dedicated transition
alert fires (component-level warnings may still fire, as the
counterexample shows); when a previous status is remembered and differs
from the current one, a change to Unhealthy emits the error-level
"Service Health Degraded" alert, a change from Unhealthy to Healthy emits
the info-level "Service Health Recovered" alert, and no other transition
emits a transition alert; and the remembered status is set to the current
status by every call. -/
theorem check_and_alert_transition_spec (st : MonitorState)
    (h : OverallHealth) :
    ((check_and_alert st h).1.last_health_status = some h.status) ∧
    (st.last_health_status = none →
      transition_alerts_of (check_and_alert st h).2 = []) ∧
    (∀ last, st.last_health_status = some last →
      transition_alerts_of (check_and_alert st h).2 =
        (if last ≠ h.status ∧ h.status = .unhealthy then
          [{ title := "Service Health Degraded"
             message := "Service status changed from " ++ last.toStr ++
               " to " ++ h.status.toStr
             level := .error }]
         else if last ≠ h.status ∧ h.status = .healthy ∧
             last = .unhealthy then
          [{ title := "Service Health Recovered"
             message := "Service status recovered from " ++ last.toStr ++
               " to " ++ h.status.toStr
             level := .info }]
         else [])) := by
  have h2 : (check_and_alert st h).2 =
      transitionAlerts st.last_health_status h.status ++
      (failureUpdate st.consecutive_failures st.max_failures h.status).2 ++
      componentAlerts h.components := rfl
  refine ⟨rfl, ?_, ?_⟩
  · intro hnone
    rw [h2, transition_alerts_of_append, transition_alerts_of_append,
      transition_alerts_of_failureUpdate,
      transition_alerts_of_componentAlerts, hnone]
    simp [transitionAlerts, transition_alerts_of]
  · intro last hlast
    rw [h2, transition_alerts_of_append, transition_alerts_of_append,
      transition_alerts_of_failureUpdate,
      transition_alerts_of_componentAlerts, hlast]
    simp only [List.append_nil]
    obtain ⟨s, ts, ver, up, comps, met⟩ := h
    cases last <;> cases s <;>
      simp [transitionAlerts, transition_alerts_of, HealthStatus.toStr]

/-- Witness for C5 at a concrete transition: previous status Healthy,
current status Unhealthy. -/
theorem check_and_alert_transition_spec_witness :
    (let st : MonitorState := { last_health_status := some .healthy }
     let h := statusOnly .unhealthy
     ((check_and_alert st h).1.last_health_status = some h.status) ∧
     (st.last_health_status = none →
       transition_alerts_of (check_and_alert st h).2 = []) ∧
     (∀ last, st.last_health_status = some last →
       transition_alerts_of (check_and_alert st h).2 =
         (if last ≠ h.status ∧ h.status = .unhealthy then
           [{ title := "Service Health Degraded"
              message := "Service status changed from " ++ last.toStr ++
                " to " ++ h.status.toStr
              level := .error }]
          else if last ≠ h.status ∧ h.status = .healthy ∧
              last = .unhealthy then
           [{ title := "Service Health Recovered"
              message := "Service status recovered from " ++ last.toStr ++
                " to " ++ h.status.toStr
              level := .info }]
          else []))) :=
  check_and_alert_transition_spec { last_health_status := some .healthy }
    (statusOnly .unhealthy)

/-- C6 counterexample: a psutil failure inside the disk probe yields a
Degraded component, not an Unhealthy one, so "every internal failure ...
status is Unhealthy" is false as stated. -/
theorem disk_probe_failure_not_unhealthy :
    ¬ (check_disk (.psutilRaises "boom") 1).status =
      HealthStatus.unhealthy := by
  decide

/-- C6 (amended): every internal exception in a standard probe is caught
and converted into a ComponentHealth whose message describes the failure
and whose response_time is still populated; the status is Unhealthy for
memory failures, dependency failures and outer model-probe failures, but
Degraded for a disk-probe exception and for a failed trial inference in
the model probe. -/
theorem probe_failure_boundary_spec (msg : String) (rt : ℚ) :
    (check_disk (.psutilRaises msg) rt =
      { name := "disk", status := .degraded
        message := some ("Disk check failed: " ++ msg)
        response_time := some rt }) ∧
    (check_memory (.psutilRaises msg) rt =
      { name := "memory", status := .unhealthy
        message := some ("Memory check failed: " ++ msg)
        response_time := some rt }) ∧
    (check_dependencies (.raises msg) rt =
      { name := "dependencies", status := .unhealthy
        message := some ("Dependency check failed: " ++ msg)
        response_time := some rt }) ∧
    (check_model (.healthCheckRaises msg) rt =
      { name := "model", status := .unhealthy
        message := some ("Model check failed: " ++ msg)
        response_time := some rt }) ∧
    (check_model (.inferRaises msg) rt =
      { name := "model", status := .degraded
        message := some ("Model loaded but inference failed: " ++ msg)
        response_time := some rt }) :=
  ⟨rfl, rfl, rfl, rfl, rfl⟩

/-- C8: a failing item does not abort a batch: for every batch accepted by
`analyze_batch` (model loaded, size within limit), the output has one
entry per input text in order, an item whose analysis raised becomes the
sentinel low-confidence negative result ("NEGATIVE", 0, 0), and an item
whose analysis succeeded keeps its result. -/
theorem analyze_batch_isolation_spec (env : InferEnv) (texts : List String)
    (hlen : texts.length ≤ BATCH_SIZE_LIMIT) :
    ∃ out, analyze_batch env true texts = .ok out ∧
      out.length = texts.length ∧
      ∀ (i : Nat) (hi : i < texts.length) (ho : i < out.length),
        (∀ e, analyze_single env true texts[i] = .error e →
          out[i] = ("NEGATIVE", (0 : ℚ), (0 : ℚ))) ∧
        (∀ r, analyze_single env true texts[i] = .ok r → out[i] = r) := by
  refine ⟨texts.map (fun text =>
    match analyze_single env true text with
    | .ok r => r
    | .error _ => ("NEGATIVE", 0, 0)), ?_, by simp, ?_⟩
  · unfold analyze_batch
    rw [if_neg (by simp), if_neg (by exact Nat.not_lt.mpr hlen)]
  · intro i hi ho
    constructor
    · intro e he
      simp only [List.getElem_map, he]
    · intro r hr
      simp only [List.getElem_map, hr]

/-- Witness for C8: a two-text batch whose second item's classification
raises; the batch succeeds with the sentinel in the second slot. -/
theorem analyze_batch_isolation_spec_witness :
    (let env : InferEnv :=
      { classify := fun t =>
          if t = "bad" then .error "boom" else .ok [("NEGATIVE", 1)]
        elapsed := fun _ => 0 }
     (["good", "bad"] : List String).length ≤ BATCH_SIZE_LIMIT ∧
     ∃ out, analyze_batch env true ["good", "bad"] = .ok out ∧
       out.length = (["good", "bad"] : List String).length ∧
       ∀ (i : Nat) (hi : i < (["good", "bad"] : List String).length)
         (ho : i < out.length),
         (∀ e, analyze_single env true (["good", "bad"] : List String)[i] =
             .error e → out[i] = ("NEGATIVE", (0 : ℚ), (0 : ℚ))) ∧
         (∀ r, analyze_single env true (["good", "bad"] : List String)[i] =
             .ok r → out[i] = r)) :=
  ⟨by decide,
   analyze_batch_isolation_spec
     { classify := fun t =>
         if t = "bad" then .error "boom" else .ok [("NEGATIVE", 1)]
       elapsed := fun _ => 0 } ["good", "bad"] (by decide)⟩

theorem argmax_aux (l : List (String × ℚ)) :
    ∀ (acc : Option (String × ℚ)) (b : String × ℚ),
      l.foldl (fun best kv =>
        match best with
        | none => some kv
        | some c => if kv.2 > c.2 then some kv else some c) acc = some b →
      acc = some b ∨ b ∈ l := by
  induction l with
  | nil =>
    intro acc b h
    exact .inl h
  | cons hd tl ih =>
    intro acc b h
    rw [List.foldl_cons] at h
    rcases ih _ b h with h1 | h2
    · cases acc with
      | none =>
        simp only [Option.some.injEq] at h1
        exact .inr (by simp [← h1])
      | some c =>
        dsimp only at h1
        by_cases hgt : hd.2 > c.2
        · rw [if_pos hgt] at h1
          simp only [Option.some.injEq] at h1
          exact .inr (by simp [← h1])
        · rw [if_neg hgt] at h1
          exact .inl h1
    · exact .inr (List.mem_cons_of_mem _ h2)

theorem argmaxScore_mem (scores : List (String × ℚ)) (b : String × ℚ)
    (hb : argmaxScore scores = some b) : b ∈ scores := by
  unfold argmaxScore at hb
  rcases argmax_aux scores none b hb with h1 | h2
  · cases h1
  · exact h2

/-- C9: when the highest-scoring dictionary entry maps to NEUTRAL,
postprocessing collapses the verdict by comparing raw class scores: a
strictly greater positive score gives POSITIVE with the positive class's
raw score, otherwise NEGATIVE with the negative class's raw score (an
exact tie yields NEGATIVE); the reported confidence is the chosen class's
raw score, not the winning neutral score. -/
theorem postprocess_neutral_collapse_spec (result : List (String × ℚ))
    (best : String × ℚ)
    (hb : argmaxScore (build_scores result) = some best)
    (hn : label_mapping best.1 = "NEUTRAL") :
    (neg_score (build_scores result) < pos_score (build_scores result) →
      postprocess_result result =
        some ("POSITIVE", pos_score (build_scores result))) ∧
    (pos_score (build_scores result) ≤ neg_score (build_scores result) →
      postprocess_result result =
        some ("NEGATIVE", neg_score (build_scores result))) := by
  have hmem : best ∈ build_scores result := argmaxScore_mem _ _ hb
  have hany : ((build_scores result).any fun p =>
      label_mapping p.1 == "NEUTRAL") = true :=
    List.any_eq_true.mpr ⟨best, hmem, by simp [hn]⟩
  simp only [postprocess_result]
  rw [hb]
  constructor
  · intro hlt
    dsimp only
    rw [if_pos ⟨hany, hn⟩, if_pos hlt]
  · intro hle
    dsimp only
    rw [if_pos ⟨hany, hn⟩, if_neg (not_lt.mpr hle)]

/-- Witness for C9: a three-class output where NEUTRAL wins with score 5
and the positive class's raw score 3 beats the negative class's 2. -/
theorem postprocess_neutral_collapse_spec_witness :
    argmaxScore (build_scores
      [("LABEL_0", 2), ("LABEL_1", 5), ("LABEL_2", 3)]) =
      some ("LABEL_1", 5) ∧
    label_mapping ("LABEL_1", (5 : ℚ)).1 = "NEUTRAL" ∧
    ((neg_score (build_scores
        [("LABEL_0", 2), ("LABEL_1", 5), ("LABEL_2", 3)]) <
      pos_score (build_scores
        [("LABEL_0", 2), ("LABEL_1", 5), ("LABEL_2", 3)]) →
      postprocess_result [("LABEL_0", 2), ("LABEL_1", 5), ("LABEL_2", 3)] =
        some ("POSITIVE", pos_score (build_scores
          [("LABEL_0", 2), ("LABEL_1", 5), ("LABEL_2", 3)]))) ∧
     (pos_score (build_scores
        [("LABEL_0", 2), ("LABEL_1", 5), ("LABEL_2", 3)]) ≤
      neg_score (build_scores
        [("LABEL_0", 2), ("LABEL_1", 5), ("LABEL_2", 3)]) →
      postprocess_result [("LABEL_0", 2), ("LABEL_1", 5), ("LABEL_2", 3)] =
        some ("NEGATIVE", neg_score (build_scores
          [("LABEL_0", 2), ("LABEL_1", 5), ("LABEL_2", 3)])))) :=
  ⟨by decide, by decide,
   postprocess_neutral_collapse_spec
     [("LABEL_0", 2), ("LABEL_1", 5), ("LABEL_2", 3)] ("LABEL_1", 5)
     (by decide) (by decide)⟩

end SentimentSense
